import Mathlib

/-!
Verification of the queue store of `purchase_queue_tool.py` (class
`PurchaseQueueTool`) from the MCP_PurchaseOrderFlow repository, as a shallow
embedding.

Modelling conventions:

* A `datetime.now()` instant is an `Instant`: `sec` counts whole seconds (the
  part rendered by `strftime "%Y%m%d_%H%M%S"`), `usec` the sub-second part
  that only `isoformat` shows.  The several `now()` calls inside one tool
  operation are modelled as a single instant.  The textual rendering of the
  second-resolution part is abstracted to `toString sec`; the essential
  feature is that it depends on the second alone.
* A Python dict passed as `request_data` is opaque to the store and is
  modelled as an association list of strings; Python truthiness (`not
  request_data`) is `none` or the empty list.
* The queue file is a `FileState`: missing, corrupt (unparsable JSON) or a
  stored document.  Reading a missing or corrupt file fails, matching the
  `FileNotFoundError`/`JSONDecodeError` handler in `_load_queue`.
  `Env.writeOk` says whether writing the file succeeds; a re-initialization
  whose write fails leaves the file as it was.
* Exceptions are `Except.error`; the `try`/`except` of `manage_queue` maps
  them to the catch-all result string.
-/

structure Instant where
  sec : Nat
  usec : Nat
deriving DecidableEq

/-- Model of `datetime.now().isoformat()`: sub-second resolution. -/
def isoformat (t : Instant) : String :=
  toString t.sec ++ "." ++ toString t.usec

/-- Model of `datetime.now().strftime("%Y%m%d_%H%M%S")`: second resolution. -/
def strftime_second (t : Instant) : String :=
  toString t.sec

/-- `PurchaseQueueTool._generate_request_id`. -/
def generate_request_id (t : Instant) : String :=
  "PQ_" ++ strftime_second t

/-- The opaque caller-supplied payload (`validation_data`), a dict modelled
as an association list. -/
abbrev ValidationData := List (String × String)

/-- A queue item as built by `_add_to_queue` and mutated by
`_mark_completed`; `completed_at`/`processed_by` are absent (`none`) until
completion. -/
structure PurchaseRequest where
  request_id : String
  timestamp : String
  status : String
  validation_data : ValidationData
  created_by : String
  completed_at : Option String := none
  processed_by : Option String := none
deriving DecidableEq

structure Metadata where
  created_at : String
  last_updated : String
deriving DecidableEq

/-- The whole-file JSON document of the queue store. -/
structure QueueDoc where
  pending_requests : List PurchaseRequest
  completed_requests : List PurchaseRequest
  metadata : Metadata
deriving DecidableEq

/-- The skeleton document written by `_initialize_queue`. -/
def empty_queue_doc (t : Instant) : QueueDoc :=
  { pending_requests := []
    completed_requests := []
    metadata := { created_at := isoformat t, last_updated := isoformat t } }

/-- The backing file of the store. -/
inductive FileState where
  | missing
  | corrupt
  | stored (doc : QueueDoc)
deriving DecidableEq

/-- The disk environment: whether a write succeeds. -/
structure Env where
  writeOk : Bool
deriving DecidableEq

/-- Reading the file parses a stored document and fails otherwise
(`FileNotFoundError` / `json.JSONDecodeError`). -/
def read_queue_file : FileState → Option QueueDoc
  | .stored d => some d
  | _ => none

/-- `PurchaseQueueTool._initialize_queue`: write the skeleton; a failing
write leaves the file untouched. -/
def initialize_queue (env : Env) (t : Instant) (fs : FileState) : FileState :=
  if env.writeOk then .stored (empty_queue_doc t) else fs

/-- `PurchaseQueueTool._load_queue`: read; on failure re-initialize and read
again, once; a second failure is an exception. -/
def load_queue (env : Env) (t : Instant) (fs : FileState) :
    Except String (QueueDoc × FileState) :=
  match read_queue_file fs with
  | some d => .ok (d, fs)
  | none =>
    let fs1 := initialize_queue env t fs
    match read_queue_file fs1 with
    | some d => .ok (d, fs1)
    | none => .error "queue file could not be read after reinitialization"

/-- `PurchaseQueueTool._save_queue`: refresh `metadata.last_updated`, then
write the whole document. -/
def save_queue (doc : QueueDoc) (t : Instant) : QueueDoc :=
  { doc with metadata := { doc.metadata with last_updated := isoformat t } }

/-- The dict literal `queue_item` built inside `_add_to_queue`. -/
def queue_item_of (d : ValidationData) (t : Instant) : PurchaseRequest :=
  { request_id := generate_request_id t
    timestamp := isoformat t
    status := "pending"
    validation_data := d
    created_by := "purchase_validation_agent" }

/-- `PurchaseQueueTool._add_to_queue`: reject empty data, else load, append
a fresh pending item, save, and report the identifier and the new pending
count. -/
def add_to_queue (request_data : Option ValidationData) (env : Env)
    (t : Instant) (fs : FileState) : Except String (String × FileState) :=
  match request_data with
  | none => .ok ("Error: No request data provided", fs)
  | some d =>
    if d = [] then .ok ("Error: No request data provided", fs)
    else
      match load_queue env t fs with
      | .error e => .error e
      | .ok (doc, _) =>
        let request_id := generate_request_id t
        let doc1 :=
          { doc with pending_requests :=
              doc.pending_requests ++ [queue_item_of d t] }
        .ok ("✅ Purchase request " ++ request_id
            ++ " added to queue successfully. Total pending requests: "
            ++ toString doc1.pending_requests.length,
          .stored (save_queue doc1 t))

/-- The search loop of `_mark_completed`: split the pending list at the
first entry whose `request_id` matches, if any. -/
def find_pending_split (rid : String) :
    List PurchaseRequest →
      Option (List PurchaseRequest × PurchaseRequest × List PurchaseRequest)
  | [] => none
  | r :: rest =>
    if r.request_id = rid then some ([], r, rest)
    else
      match find_pending_split rid rest with
      | some (a, x, b) => some (r :: a, x, b)
      | none => none

/-- `PurchaseQueueTool._mark_completed`: reject an empty identifier, else
load and move the first matching pending entry, stamped completed, to the
tail of the completed list, and save; report not-found otherwise without
saving. -/
def mark_completed (request_id : Option String) (env : Env) (t : Instant)
    (fs : FileState) : Except String (String × FileState) :=
  match request_id with
  | none => .ok ("Error: No request ID provided", fs)
  | some rid =>
    if rid = "" then .ok ("Error: No request ID provided", fs)
    else
      match load_queue env t fs with
      | .error e => .error e
      | .ok (doc, fs1) =>
        match find_pending_split rid doc.pending_requests with
        | some (a, r, b) =>
          let r1 := { r with status := "completed",
                             completed_at := some (isoformat t),
                             processed_by := some "purchase_order_agent" }
          let doc1 := { doc with pending_requests := a ++ b,
                                 completed_requests := doc.completed_requests ++ [r1] }
          .ok ("✅ Request " ++ rid ++ " marked as completed. Remaining pending: "
              ++ toString (a ++ b).length,
            .stored (save_queue doc1 t))
        | none =>
          .ok ("❌ Request " ++ rid ++ " not found in pending requests", fs1)

/-- The per-request validation summary rendered by `_get_pending_requests`. -/
def validation_summary (vd : ValidationData) : String :=
  if vd = [] then ""
  else
    "   Validation Summary:\n"
      ++ (match vd.lookup "budget_status" with
          | some v => "     - Budget Status: " ++ v ++ "\n"
          | none => "")
      ++ (match vd.lookup "total_cost" with
          | some v => "     - Total Cost: $" ++ v ++ "\n"
          | none => "")
      ++ (match vd.lookup "supplier_count" with
          | some v => "     - Suppliers: " ++ v ++ "\n"
          | none => "")
      ++ (match vd.lookup "priority_items" with
          | some v => "     - Critical Items: " ++ v ++ "\n"
          | none => "")

/-- One block of the `_get_pending_requests` rendering loop. -/
def render_request (r : PurchaseRequest) : String :=
  "🔹 Request ID: " ++ r.request_id ++ "\n"
    ++ "   Timestamp: " ++ r.timestamp ++ "\n"
    ++ "   Status: " ++ r.status ++ "\n"
    ++ validation_summary r.validation_data
    ++ "\n"

/-- The snapshot of pending requests that `_get_pending_requests` iterates:
the document's `pending_requests` sequence. -/
def get_pending_list (doc : QueueDoc) : List PurchaseRequest :=
  doc.pending_requests

/-- The rendering of `_get_pending_requests` over a loaded document. -/
def render_pending (doc : QueueDoc) : String :=
  let pending := get_pending_list doc
  if pending = [] then "📋 No pending purchase requests in queue."
  else
    "📋 Found " ++ toString pending.length ++ " pending purchase request(s):\n\n"
      ++ String.join (pending.map render_request)

/-- `PurchaseQueueTool._get_pending_requests`: load, then render. -/
def get_pending_requests (env : Env) (t : Instant) (fs : FileState) :
    Except String (String × FileState) :=
  match load_queue env t fs with
  | .error e => .error e
  | .ok (doc, fs1) => .ok (render_pending doc, fs1)

/-- The rendering of `_get_queue_status` over a loaded document. -/
def render_status (doc : QueueDoc) : String :=
  "📊 Purchase Queue Status:\n"
    ++ "   Pending Requests: " ++ toString doc.pending_requests.length ++ "\n"
    ++ "   Completed Requests: " ++ toString doc.completed_requests.length ++ "\n"
    ++ "   Last Updated: " ++ doc.metadata.last_updated ++ "\n"

/-- `PurchaseQueueTool._get_queue_status`: load, then render the counts. -/
def get_queue_status (env : Env) (t : Instant) (fs : FileState) :
    Except String (String × FileState) :=
  match load_queue env t fs with
  | .error e => .error e
  | .ok (doc, fs1) => .ok (render_status doc, fs1)

/-- The four recognised action names of `manage_queue`. -/
def known_actions : List String :=
  ["add_to_queue", "get_pending", "mark_completed", "get_status"]

/-- The dispatch of `PurchaseQueueTool.manage_queue` before its
`try`/`except` wrapper is applied. -/
def manage_queue_raw (action : String) (request_data : Option ValidationData)
    (request_id : Option String) (env : Env) (t : Instant) (fs : FileState) :
    Except String (String × FileState) :=
  if action = "add_to_queue" then
    add_to_queue request_data env t fs
  else if action = "get_pending" then
    get_pending_requests env t fs
  else if action = "mark_completed" then
    mark_completed request_id env t fs
  else if action = "get_status" then
    get_queue_status env t fs
  else
    .ok ("Error: Unknown action '" ++ action
        ++ "'. Available actions: add_to_queue, get_pending, mark_completed, get_status",
      fs)

/-- `PurchaseQueueTool.manage_queue`: the dispatch under the catch-all
`except`, which turns any exception into an error result string and leaves
the file as it was. -/
def manage_queue (action : String) (request_data : Option ValidationData)
    (request_id : Option String) (env : Env) (t : Instant) (fs : FileState) :
    String × FileState :=
  match manage_queue_raw action request_data request_id env t fs with
  | .ok r => r
  | .error e => ("Error in PurchaseQueueTool: " ++ e, fs)

/-- A mutating tool call with the clock instant it runs at. -/
inductive QueueOp where
  | add (rd : ValidationData) (t : Instant)
  | complete (rid : String) (t : Instant)
deriving DecidableEq

/-- The document after one mutating call on a stored document (from a stored
file the operations never raise, and always leave a stored file). -/
def apply_op (env : Env) (doc : QueueDoc) : QueueOp → QueueDoc
  | .add rd t =>
    match add_to_queue (some rd) env t (.stored doc) with
    | .ok (_, .stored d1) => d1
    | _ => doc
  | .complete rid t =>
    match mark_completed (some rid) env t (.stored doc) with
    | .ok (_, .stored d1) => d1
    | _ => doc

/-- The document reached by a sequence of mutating calls. -/
def run_ops (env : Env) (doc : QueueDoc) : List QueueOp → QueueDoc
  | [] => doc
  | op :: rest => run_ops env (apply_op env doc op) rest

/-- The identifiers generated by the `add` calls of a sequence. -/
def add_op_ids : List QueueOp → List String
  | [] => []
  | .add _ t :: rest => generate_request_id t :: add_op_ids rest
  | .complete _ _ :: rest => add_op_ids rest

/-- All request identifiers of a document, pending before completed. -/
def doc_ids (doc : QueueDoc) : List String :=
  (doc.pending_requests ++ doc.completed_requests).map PurchaseRequest.request_id

/-- The document invariant of the spec: identifiers are pairwise distinct
across the two sequences, completed entries are stamped, pending entries are
not. -/
def QueueInv (doc : QueueDoc) : Prop :=
  (doc_ids doc).Nodup ∧
    (∀ r ∈ doc.pending_requests, r.status = "pending" ∧ r.completed_at = none) ∧
    (∀ r ∈ doc.completed_requests, r.status = "completed" ∧ r.completed_at ≠ none)

instance (doc : QueueDoc) : Decidable (QueueInv doc) :=
  decidable_of_iff
    ((doc_ids doc).Nodup ∧
      (∀ r ∈ doc.pending_requests, r.status = "pending" ∧ r.completed_at = none) ∧
      (∀ r ∈ doc.completed_requests, r.status = "completed" ∧ r.completed_at ≠ none))
    Iff.rfl

deriving instance DecidableEq for Except

/-- A concrete sample item, admitted at second 1. -/
def sample_item : PurchaseRequest :=
  queue_item_of [("supplier_name", "Test Supplier")] ⟨1, 0⟩

/-- A concrete document holding the sample item as its only pending request. -/
def sample_doc : QueueDoc :=
  { pending_requests := [sample_item]
    completed_requests := []
    metadata := { created_at := isoformat ⟨0, 0⟩, last_updated := isoformat ⟨1, 0⟩ } }

/-- `sample_doc` after completing the sample item at second 2. -/
def sample_doc_completed : QueueDoc :=
  { pending_requests := []
    completed_requests := [{ sample_item with status := "completed",
                                              completed_at := some (isoformat ⟨2, 0⟩),
                                              processed_by := some "purchase_order_agent" }]
    metadata := { created_at := isoformat ⟨0, 0⟩, last_updated := isoformat ⟨2, 0⟩ } }

/-! ## Shape lemmas for the operations -/

theorem load_queue_stored (env : Env) (t : Instant) (doc : QueueDoc) :
    load_queue env t (.stored doc) = .ok (doc, .stored doc) := rfl

theorem find_pending_split_of_forall_ne {rid : String} :
    ∀ {l : List PurchaseRequest}, (∀ r ∈ l, r.request_id ≠ rid) →
      find_pending_split rid l = none := by
  intro l
  induction l with
  | nil => intro _; rfl
  | cons r rest ih =>
    intro h
    rw [find_pending_split, if_neg (h r (List.mem_cons_self r rest)),
      ih (fun x hx => h x (List.mem_cons_of_mem r hx))]

theorem forall_ne_of_find_pending_split {rid : String} :
    ∀ {l : List PurchaseRequest}, find_pending_split rid l = none →
      ∀ r ∈ l, r.request_id ≠ rid := by
  intro l
  induction l with
  | nil => intro _ r hr; cases hr
  | cons r rest ih =>
    intro h x hx
    rw [find_pending_split] at h
    by_cases hr : r.request_id = rid
    · rw [if_pos hr] at h; cases h
    · rw [if_neg hr] at h
      cases hfs : find_pending_split rid rest with
      | some abr => rw [hfs] at h; cases h
      | none =>
        rcases List.mem_cons.mp hx with rfl | hx'
        · exact hr
        · exact ih hfs x hx'

theorem find_pending_split_some_spec {rid : String} :
    ∀ {l a b : List PurchaseRequest} {x : PurchaseRequest},
      find_pending_split rid l = some (a, x, b) →
      l = a ++ x :: b ∧ x.request_id = rid ∧ ∀ r ∈ a, r.request_id ≠ rid := by
  intro l
  induction l with
  | nil => intro a b x h; cases h
  | cons r rest ih =>
    intro a b x h
    rw [find_pending_split] at h
    by_cases hr : r.request_id = rid
    · rw [if_pos hr] at h
      simp only [Option.some.injEq, Prod.mk.injEq] at h
      obtain ⟨rfl, rfl, rfl⟩ := h
      exact ⟨rfl, hr, by intro y hy; cases hy⟩
    · rw [if_neg hr] at h
      cases hfs : find_pending_split rid rest with
      | none => rw [hfs] at h; cases h
      | some abr =>
        obtain ⟨a', x', b'⟩ := abr
        rw [hfs] at h
        simp only [Option.some.injEq, Prod.mk.injEq] at h
        obtain ⟨rfl, rfl, rfl⟩ := h
        obtain ⟨h1, h2, h3⟩ := ih hfs
        refine ⟨by rw [List.cons_append, h1], h2, ?_⟩
        intro y hy
        rcases List.mem_cons.mp hy with rfl | hy'
        · exact hr
        · exact h3 y hy'

theorem find_pending_split_append {rid : String} {x : PurchaseRequest}
    {b : List PurchaseRequest} :
    ∀ {a : List PurchaseRequest}, (∀ r ∈ a, r.request_id ≠ rid) →
      x.request_id = rid →
      find_pending_split rid (a ++ x :: b) = some (a, x, b) := by
  intro a
  induction a with
  | nil => intro _ hx; rw [List.nil_append, find_pending_split, if_pos hx]
  | cons r rest ih =>
    intro ha hx
    rw [List.cons_append, find_pending_split,
      if_neg (ha r (List.mem_cons_self r rest)),
      ih (fun y hy => ha y (List.mem_cons_of_mem r hy)) hx]

theorem add_to_queue_some_eq (env : Env) (t : Instant) (doc : QueueDoc)
    {d : ValidationData} (hd : d ≠ []) :
    add_to_queue (some d) env t (.stored doc) =
      .ok ("✅ Purchase request " ++ generate_request_id t
          ++ " added to queue successfully. Total pending requests: "
          ++ toString (doc.pending_requests.length + 1),
        .stored { pending_requests := doc.pending_requests ++ [queue_item_of d t],
                  completed_requests := doc.completed_requests,
                  metadata := { created_at := doc.metadata.created_at,
                                last_updated := isoformat t } }) := by
  simp only [add_to_queue, if_neg hd, load_queue, read_queue_file, save_queue,
    List.length_append, List.length_cons, List.length_nil]

theorem mark_completed_found_eq (env : Env) (t : Instant) (doc : QueueDoc)
    {rid : String} {a b : List PurchaseRequest} {r : PurchaseRequest}
    (hsplit : doc.pending_requests = a ++ r :: b)
    (hr : r.request_id = rid)
    (ha : ∀ x ∈ a, x.request_id ≠ rid)
    (h0 : rid ≠ "") :
    mark_completed (some rid) env t (.stored doc) =
      .ok ("✅ Request " ++ rid ++ " marked as completed. Remaining pending: "
          ++ toString (a ++ b).length,
        .stored { pending_requests := a ++ b,
                  completed_requests := doc.completed_requests ++
                    [{ r with status := "completed",
                              completed_at := some (isoformat t),
                              processed_by := some "purchase_order_agent" }],
                  metadata := { created_at := doc.metadata.created_at,
                                last_updated := isoformat t } }) := by
  simp only [mark_completed, if_neg h0, load_queue, read_queue_file, hsplit,
    find_pending_split_append ha hr, save_queue]

theorem mark_completed_notfound_eq (env : Env) (t : Instant) (doc : QueueDoc)
    {rid : String}
    (h0 : rid ≠ "")
    (hno : ∀ x ∈ doc.pending_requests, x.request_id ≠ rid) :
    mark_completed (some rid) env t (.stored doc) =
      .ok ("❌ Request " ++ rid ++ " not found in pending requests",
        .stored doc) := by
  simp only [mark_completed, if_neg h0, load_queue, read_queue_file,
    find_pending_split_of_forall_ne hno]

theorem apply_op_add_eq (env : Env) (doc : QueueDoc) {rd : ValidationData}
    (t : Instant) (hd : rd ≠ []) :
    apply_op env doc (.add rd t) =
      { pending_requests := doc.pending_requests ++ [queue_item_of rd t],
        completed_requests := doc.completed_requests,
        metadata := { created_at := doc.metadata.created_at,
                      last_updated := isoformat t } } := by
  simp only [apply_op, add_to_queue_some_eq env t doc hd]

theorem apply_op_add_empty_eq (env : Env) (doc : QueueDoc) (t : Instant) :
    apply_op env doc (.add [] t) = doc := rfl

theorem apply_op_complete_found_eq (env : Env) (doc : QueueDoc)
    {rid : String} {a b : List PurchaseRequest} {r : PurchaseRequest}
    (t : Instant)
    (hsplit : doc.pending_requests = a ++ r :: b)
    (hr : r.request_id = rid)
    (ha : ∀ x ∈ a, x.request_id ≠ rid)
    (h0 : rid ≠ "") :
    apply_op env doc (.complete rid t) =
      { pending_requests := a ++ b,
        completed_requests := doc.completed_requests ++
          [{ r with status := "completed",
                    completed_at := some (isoformat t),
                    processed_by := some "purchase_order_agent" }],
        metadata := { created_at := doc.metadata.created_at,
                      last_updated := isoformat t } } := by
  simp only [apply_op, mark_completed_found_eq env t doc hsplit hr ha h0]

theorem apply_op_complete_notfound_eq (env : Env) (doc : QueueDoc)
    {rid : String} (t : Instant)
    (h0 : rid ≠ "")
    (hno : ∀ x ∈ doc.pending_requests, x.request_id ≠ rid) :
    apply_op env doc (.complete rid t) = doc := by
  simp only [apply_op, mark_completed_notfound_eq env t doc h0 hno]

theorem apply_op_complete_empty_eq (env : Env) (doc : QueueDoc) (t : Instant) :
    apply_op env doc (.complete "" t) = doc := rfl

/-! ## Identifier bookkeeping -/

theorem doc_ids_apply_add_perm (env : Env) (doc : QueueDoc)
    {rd : ValidationData} (t : Instant) (hd : rd ≠ []) :
    List.Perm (doc_ids (apply_op env doc (.add rd t)))
      (generate_request_id t :: doc_ids doc) := by
  rw [apply_op_add_eq env doc t hd]
  simp only [doc_ids, List.map_append, List.append_assoc, List.map_cons,
    List.map_nil, List.singleton_append, queue_item_of]
  exact List.perm_middle

theorem perm_move_to_tail {α : Type} (a b c : List α) (g : α) :
    List.Perm ((a ++ b) ++ (c ++ [g])) ((a ++ g :: b) ++ c) := by
  have h1 : (a ++ b) ++ (c ++ [g]) = ((a ++ b) ++ c) ++ [g] := by
    simp only [List.append_assoc]
  rw [h1]
  refine List.Perm.trans (List.perm_append_singleton _ _) ?_
  have h2 : (a ++ g :: b) ++ c = a ++ g :: (b ++ c) := by
    simp only [List.append_assoc, List.cons_append]
  rw [h2, List.append_assoc]
  exact List.perm_middle.symm

theorem doc_ids_apply_complete_perm (env : Env) (doc : QueueDoc)
    (rid : String) (t : Instant) :
    List.Perm (doc_ids (apply_op env doc (.complete rid t))) (doc_ids doc) := by
  by_cases h0 : rid = ""
  · subst h0; rw [apply_op_complete_empty_eq]
  · cases hfs : find_pending_split rid doc.pending_requests with
    | none =>
      rw [apply_op_complete_notfound_eq env doc t h0
        (forall_ne_of_find_pending_split hfs)]
    | some abr =>
      obtain ⟨a, r, b⟩ := abr
      obtain ⟨hsplit, hr, ha⟩ := find_pending_split_some_spec hfs
      rw [apply_op_complete_found_eq env doc t hsplit hr ha h0]
      simp only [doc_ids, hsplit, List.map_append, List.map_cons, List.map_nil]
      exact perm_move_to_tail _ _ _ _

/-! ## The document invariant under the operations -/

theorem queue_inv_apply_add (env : Env) (doc : QueueDoc) (rd : ValidationData)
    (t : Instant) (hInv : QueueInv doc)
    (hfresh : generate_request_id t ∉ doc_ids doc) :
    QueueInv (apply_op env doc (.add rd t)) := by
  by_cases hd : rd = []
  · subst hd; rw [apply_op_add_empty_eq]; exact hInv
  · obtain ⟨hnd, hp, hc⟩ := hInv
    have hperm := doc_ids_apply_add_perm env doc t hd
    rw [apply_op_add_eq env doc t hd] at hperm ⊢
    refine ⟨(hperm.nodup_iff).mpr (List.nodup_cons.mpr ⟨hfresh, hnd⟩), ?_, ?_⟩
    · intro x hx
      rcases List.mem_append.mp hx with h | h
      · exact hp x h
      · rw [List.mem_singleton.mp h]
        exact ⟨rfl, rfl⟩
    · exact hc

theorem queue_inv_apply_complete (env : Env) (doc : QueueDoc) (rid : String)
    (t : Instant) (hInv : QueueInv doc) :
    QueueInv (apply_op env doc (.complete rid t)) := by
  by_cases h0 : rid = ""
  · subst h0; rw [apply_op_complete_empty_eq]; exact hInv
  · cases hfs : find_pending_split rid doc.pending_requests with
    | none =>
      rw [apply_op_complete_notfound_eq env doc t h0
        (forall_ne_of_find_pending_split hfs)]
      exact hInv
    | some abr =>
      obtain ⟨a, r, b⟩ := abr
      obtain ⟨hsplit, hrid, ha⟩ := find_pending_split_some_spec hfs
      obtain ⟨hnd, hp, hc⟩ := hInv
      have hperm := doc_ids_apply_complete_perm env doc rid t
      rw [apply_op_complete_found_eq env doc t hsplit hrid ha h0] at hperm ⊢
      refine ⟨(hperm.nodup_iff).mpr hnd, ?_, ?_⟩
      · intro x hx
        refine hp x ?_
        rw [hsplit]
        rcases List.mem_append.mp hx with h | h
        · exact List.mem_append.mpr (Or.inl h)
        · exact List.mem_append.mpr (Or.inr (List.mem_cons_of_mem r h))
      · intro x hx
        rcases List.mem_append.mp hx with h | h
        · exact hc x h
        · rw [List.mem_singleton.mp h]
          exact ⟨rfl, by simp⟩

theorem run_ops_inv : ∀ (ops : List QueueOp) (env : Env) (doc : QueueDoc),
    QueueInv doc → (add_op_ids ops).Nodup →
    (∀ i ∈ add_op_ids ops, i ∉ doc_ids doc) →
    QueueInv (run_ops env doc ops) := by
  intro ops
  induction ops with
  | nil => intro env doc h _ _; exact h
  | cons op rest ih =>
    intro env doc hInv hnd hfresh
    cases op with
    | add rd t =>
      simp only [add_op_ids] at hnd hfresh
      obtain ⟨hg_rest, hnd'⟩ := List.nodup_cons.mp hnd
      have hg : generate_request_id t ∉ doc_ids doc :=
        hfresh _ (List.mem_cons_self _ _)
      refine ih env (apply_op env doc (.add rd t))
        (queue_inv_apply_add env doc rd t hInv hg) hnd' ?_
      intro i hi hmem
      by_cases hd : rd = []
      · rw [hd, apply_op_add_empty_eq] at hmem
        exact hfresh i (List.mem_cons_of_mem _ hi) hmem
      · have hperm := doc_ids_apply_add_perm env doc t hd
        rcases List.mem_cons.mp ((hperm.mem_iff).mp hmem) with rfl | h
        · exact hg_rest hi
        · exact hfresh i (List.mem_cons_of_mem _ hi) h
    | complete rid t =>
      simp only [add_op_ids] at hnd hfresh
      refine ih env (apply_op env doc (.complete rid t))
        (queue_inv_apply_complete env doc rid t hInv) hnd ?_
      intro i hi hmem
      exact hfresh i hi
        (((doc_ids_apply_complete_perm env doc rid t).mem_iff).mp hmem)

theorem queue_inv_empty (t : Instant) : QueueInv (empty_queue_doc t) := by
  refine ⟨List.nodup_nil, ?_, ?_⟩ <;> intro r hr <;> cases hr

/-! ## Claims -/

/-- C1: the claim fails on the code.  `_generate_request_id` renders the
clock at second resolution, so two admissions within the same clock second
(distinct instants of second 5 here) return the same identifier, and the
queue ends up holding the identifier "PQ_5" twice.  The docstring of
`_generate_request_id` promises a unique identifier; the code does not
deliver one. -/
theorem request_id_collision_same_second :
    (⟨5, 0⟩ : Instant) ≠ ⟨5, 999999⟩ ∧
    generate_request_id ⟨5, 0⟩ = generate_request_id ⟨5, 999999⟩ ∧
    (run_ops ⟨true⟩ (empty_queue_doc ⟨0, 0⟩)
        [.add [("supplier_name", "Test Supplier")] ⟨5, 0⟩,
         .add [("supplier_name", "Test Supplier")] ⟨5, 999999⟩]).pending_requests.map
      PurchaseRequest.request_id = ["PQ_5", "PQ_5"] := by
  refine ⟨by decide, rfl, by decide⟩

/-- C2: counterexample.  The invariant fails on a document reachable from
the initialized empty document: two admissions within clock second 5 leave
the identifier "PQ_5" twice in `pending_requests`. -/
theorem queue_invariant_counterexample :
    ¬ QueueInv (run_ops ⟨true⟩ (empty_queue_doc ⟨0, 0⟩)
      [.add [("k", "v")] ⟨5, 0⟩, .add [("k", "v")] ⟨5, 1⟩]) := by decide

/-- C2 (amended): provided the identifiers generated by the admissions of
the sequence are pairwise distinct (no two admissions within the same clock
second), every document reachable by `add_to_queue`/`mark_completed` calls
from the initialized empty document satisfies the invariant: request
identifiers are pairwise distinct across `pending_requests` and
`completed_requests` (so each appears in exactly one of them, never twice),
every completed entry has status "completed" and a `completed_at` field,
and every pending entry has status "pending" and no `completed_at`. -/
theorem queue_partition_invariant (env : Env) (t0 : Instant)
    (ops : List QueueOp) (h : (add_op_ids ops).Nodup) :
    QueueInv (run_ops env (empty_queue_doc t0) ops) :=
  run_ops_inv ops env (empty_queue_doc t0) (queue_inv_empty t0) h
    (by intro i _ hmem; cases hmem)

/-- C2: witness for the amended theorem at a concrete three-step run. -/
theorem queue_partition_invariant_witness :
    QueueInv (run_ops ⟨true⟩ (empty_queue_doc ⟨0, 0⟩)
      [.add [("k", "v")] ⟨1, 0⟩, .add [("k", "v")] ⟨2, 0⟩,
       .complete "PQ_1" ⟨3, 0⟩]) :=
  queue_partition_invariant ⟨true⟩ ⟨0, 0⟩
    [.add [("k", "v")] ⟨1, 0⟩, .add [("k", "v")] ⟨2, 0⟩,
     .complete "PQ_1" ⟨3, 0⟩] (by decide)

/-- C3: `_mark_completed` on a stored document, given an identifier that
occurs in `pending_requests` (first occurrence isolated as `a ++ r :: b`
with no match in `a`) and is non-empty as every generated identifier is,
stamps the first matching entry completed (status, `completed_at`,
`processed_by`), appends it to the tail of `completed_requests`, removes it
from `pending_requests`, and persists the document with a refreshed
`last_updated`. -/
theorem mark_completed_moves_first_match (env : Env) (t : Instant)
    (doc : QueueDoc) (rid : String) (a b : List PurchaseRequest)
    (r : PurchaseRequest)
    (hsplit : doc.pending_requests = a ++ r :: b)
    (hr : r.request_id = rid)
    (ha : ∀ x ∈ a, x.request_id ≠ rid)
    (h0 : rid ≠ "") :
    mark_completed (some rid) env t (.stored doc) =
      .ok ("✅ Request " ++ rid ++ " marked as completed. Remaining pending: "
          ++ toString (a ++ b).length,
        .stored { pending_requests := a ++ b,
                  completed_requests := doc.completed_requests ++
                    [{ r with status := "completed",
                              completed_at := some (isoformat t),
                              processed_by := some "purchase_order_agent" }],
                  metadata := { created_at := doc.metadata.created_at,
                                last_updated := isoformat t } }) :=
  mark_completed_found_eq env t doc hsplit hr ha h0

/-- C3: witness — completing the single pending sample item. -/
theorem mark_completed_moves_first_match_witness :
    mark_completed (some "PQ_1") ⟨true⟩ ⟨2, 0⟩ (.stored sample_doc) =
      .ok ("✅ Request PQ_1 marked as completed. Remaining pending: 0",
        .stored sample_doc_completed) := by
  rw [mark_completed_moves_first_match ⟨true⟩ ⟨2, 0⟩ sample_doc "PQ_1" [] []
    sample_item (by decide) (by decide) (by decide) (by decide)]
  decide

/-- C4: counterexample.  On the reachable document obtained by two
admissions within clock second 5 followed by one successful completion of
"PQ_5", a second `mark_completed "PQ_5"` does not return the not-found
result leaving the document unchanged: the duplicated identifier lets it
succeed a second time. -/
theorem complete_twice_counterexample :
    mark_completed (some "PQ_5") ⟨true⟩ ⟨7, 0⟩
        (.stored (run_ops ⟨true⟩ (empty_queue_doc ⟨0, 0⟩)
          [.add [("k", "v")] ⟨5, 0⟩, .add [("k", "v")] ⟨5, 1⟩,
           .complete "PQ_5" ⟨6, 0⟩])) ≠
      .ok ("❌ Request PQ_5 not found in pending requests",
        .stored (run_ops ⟨true⟩ (empty_queue_doc ⟨0, 0⟩)
          [.add [("k", "v")] ⟨5, 0⟩, .add [("k", "v")] ⟨5, 1⟩,
           .complete "PQ_5" ⟨6, 0⟩])) ∧
    Except.map Prod.fst (mark_completed (some "PQ_5") ⟨true⟩ ⟨7, 0⟩
        (.stored (run_ops ⟨true⟩ (empty_queue_doc ⟨0, 0⟩)
          [.add [("k", "v")] ⟨5, 0⟩, .add [("k", "v")] ⟨5, 1⟩,
           .complete "PQ_5" ⟨6, 0⟩]))) =
      Except.ok "✅ Request PQ_5 marked as completed. Remaining pending: 0" := by
  refine ⟨by decide, by decide⟩

/-- C4 (amended): with a non-empty identifier and no matching pending
entry, `_mark_completed` returns the not-found result and leaves the stored
document exactly unchanged (no save happens); and when the identifier
occurs in exactly one pending entry — as the invariant guarantees when
admissions fall in distinct clock seconds — a second call after a
successful completion returns the not-found result and leaves the document
exactly as the first, successful call left it. -/
theorem mark_completed_notfound_and_idempotent (env : Env) (doc : QueueDoc)
    (rid : String) (h0 : rid ≠ "") :
    (∀ t, (∀ x ∈ doc.pending_requests, x.request_id ≠ rid) →
      mark_completed (some rid) env t (.stored doc) =
        .ok ("❌ Request " ++ rid ++ " not found in pending requests",
          .stored doc)) ∧
    (∀ t1 t2 msg1 fs1,
      doc.pending_requests.countP (fun x => decide (x.request_id = rid)) = 1 →
      mark_completed (some rid) env t1 (.stored doc) = .ok (msg1, fs1) →
      mark_completed (some rid) env t2 fs1 =
        .ok ("❌ Request " ++ rid ++ " not found in pending requests", fs1)) := by
  constructor
  · intro t hno
    exact mark_completed_notfound_eq env t doc h0 hno
  · intro t1 t2 msg1 fs1 hcount hfirst
    cases hfs : find_pending_split rid doc.pending_requests with
    | none =>
      exfalso
      have hno := forall_ne_of_find_pending_split hfs
      have hzero : doc.pending_requests.countP
          (fun x => decide (x.request_id = rid)) = 0 := by
        refine List.countP_eq_zero.mpr ?_
        intro x hx
        simp [hno x hx]
      omega
    | some abr =>
      obtain ⟨a, r, b⟩ := abr
      obtain ⟨hsplit, hrid, ha⟩ := find_pending_split_some_spec hfs
      have hb : ∀ x ∈ b, x.request_id ≠ rid := by
        intro x hx heq
        rw [hsplit, List.countP_append, List.countP_cons] at hcount
        simp [hrid] at hcount
        have hxc : 0 < b.countP (fun x => decide (x.request_id = rid)) :=
          List.countP_pos_iff.mpr ⟨x, hx, by simp [heq]⟩
        omega
      rw [mark_completed_found_eq env t1 doc hsplit hrid ha h0] at hfirst
      simp only [Except.ok.injEq, Prod.mk.injEq] at hfirst
      obtain ⟨hmsg, hfs1⟩ := hfirst
      subst hfs1
      refine mark_completed_notfound_eq env t2 _ h0 ?_
      intro x hx
      rcases List.mem_append.mp hx with h | h
      · exact ha x h
      · exact hb x h

/-- C4: witness — the second completion of the sample identifier returns
the not-found result and leaves the document as the first call left it. -/
theorem mark_completed_notfound_and_idempotent_witness :
    mark_completed (some "PQ_1") ⟨true⟩ ⟨3, 0⟩ (.stored sample_doc_completed) =
      .ok ("❌ Request PQ_1 not found in pending requests",
        .stored sample_doc_completed) :=
  (mark_completed_notfound_and_idempotent ⟨true⟩ sample_doc "PQ_1"
      (by decide)).2 ⟨2, 0⟩ ⟨3, 0⟩
    "✅ Request PQ_1 marked as completed. Remaining pending: 0"
    (.stored sample_doc_completed) (by decide) (by decide)

/-- C5: `_add_to_queue` returns the invalid-input result and leaves the
stored document unchanged when `request_data` is missing or empty; with
non-empty data it appends a freshly-identified pending entry to the end of
`pending_requests`, persists the document with a refreshed `last_updated`,
and returns the new identifier together with the updated pending count. -/
theorem add_to_queue_spec (env : Env) (t : Instant) (doc : QueueDoc)
    (d : ValidationData) :
    (add_to_queue none env t (.stored doc) =
      .ok ("Error: No request data provided", .stored doc)) ∧
    (add_to_queue (some []) env t (.stored doc) =
      .ok ("Error: No request data provided", .stored doc)) ∧
    (d ≠ [] →
      add_to_queue (some d) env t (.stored doc) =
        .ok ("✅ Purchase request " ++ generate_request_id t
            ++ " added to queue successfully. Total pending requests: "
            ++ toString (doc.pending_requests.length + 1),
          .stored { pending_requests := doc.pending_requests ++ [queue_item_of d t],
                    completed_requests := doc.completed_requests,
                    metadata := { created_at := doc.metadata.created_at,
                                  last_updated := isoformat t } }) ∧
      (queue_item_of d t).status = "pending" ∧
      (queue_item_of d t).request_id = generate_request_id t) :=
  ⟨rfl, rfl, fun hd => ⟨add_to_queue_some_eq env t doc hd, rfl, rfl⟩⟩

/-- C5: witness — admitting the sample payload into the empty document. -/
theorem add_to_queue_spec_witness :
    add_to_queue (some [("supplier_name", "Test Supplier")]) ⟨true⟩ ⟨1, 0⟩
        (.stored (empty_queue_doc ⟨0, 0⟩)) =
      .ok ("✅ Purchase request PQ_1 added to queue successfully. Total pending requests: 1",
        .stored sample_doc) := by
  rw [((add_to_queue_spec ⟨true⟩ ⟨1, 0⟩ (empty_queue_doc ⟨0, 0⟩)
    [("supplier_name", "Test Supplier")]).2.2 (by decide)).1]
  decide

/-- C6: `_load_queue` returns a readable document as is; on a failed read
it re-initializes the skeleton and retries exactly once, returning the
skeleton when the write succeeded; when the retried read fails again the
failure is surfaced through the catch-all of `manage_queue` as an error
result, not retried further. -/
theorem load_queue_retry_spec (env : Env) (t : Instant) (fs : FileState) :
    (∀ d, read_queue_file fs = some d → load_queue env t fs = .ok (d, fs)) ∧
    (read_queue_file fs = none → env.writeOk = true →
      load_queue env t fs =
        .ok (empty_queue_doc t, .stored (empty_queue_doc t))) ∧
    (read_queue_file fs = none → env.writeOk = false →
      load_queue env t fs =
        .error "queue file could not be read after reinitialization" ∧
      manage_queue "get_status" none none env t fs =
        ("Error in PurchaseQueueTool: queue file could not be read after reinitialization",
          fs)) := by
  refine ⟨?_, ?_, ?_⟩
  · intro d hd
    simp [load_queue, hd]
  · intro h hw
    simp only [load_queue, h]
    simp [initialize_queue, hw, read_queue_file]
  · intro h hw
    have hl : load_queue env t fs =
        .error "queue file could not be read after reinitialization" := by
      simp only [load_queue, h]
      simp [initialize_queue, hw, h]
    refine ⟨hl, ?_⟩
    simp [manage_queue, manage_queue_raw, get_queue_status, hl]

/-- C6: witness — a missing file on a disk whose writes fail. -/
theorem load_queue_retry_spec_witness :
    load_queue ⟨false⟩ ⟨1, 0⟩ .missing =
        .error "queue file could not be read after reinitialization" ∧
      manage_queue "get_status" none none ⟨false⟩ ⟨1, 0⟩ .missing =
        ("Error in PurchaseQueueTool: queue file could not be read after reinitialization",
          .missing) :=
  (load_queue_retry_spec ⟨false⟩ ⟨1, 0⟩ .missing).2.2 rfl rfl

/-- C7: `manage_queue` is a total function into result strings: an unknown
action name yields the explicit unknown-action error result naming the
action and touches nothing, and every outcome of the dispatched operation —
normal result or exception — is returned as a result string, exceptions
through the catch-all error string. -/
theorem manage_queue_total_spec (action : String) (rd : Option ValidationData)
    (rid : Option String) (env : Env) (t : Instant) (fs : FileState) :
    (action ∉ known_actions →
      manage_queue action rd rid env t fs =
        ("Error: Unknown action '" ++ action
          ++ "'. Available actions: add_to_queue, get_pending, mark_completed, get_status",
          fs)) ∧
    (∀ e, manage_queue_raw action rd rid env t fs = .error e →
      manage_queue action rd rid env t fs =
        ("Error in PurchaseQueueTool: " ++ e, fs)) ∧
    (∀ out fs1, manage_queue_raw action rd rid env t fs = .ok (out, fs1) →
      manage_queue action rd rid env t fs = (out, fs1)) := by
  refine ⟨?_, ?_, ?_⟩
  · intro h
    simp only [known_actions, List.mem_cons, List.not_mem_nil, or_false,
      not_or] at h
    obtain ⟨h1, h2, h3, h4⟩ := h
    simp [manage_queue, manage_queue_raw, h1, h2, h3, h4]
  · intro e he
    simp [manage_queue, he]
  · intro out fs1 hok
    simp [manage_queue, hok]

/-- C7: witness — a bogus action name on the empty stored document. -/
theorem manage_queue_total_spec_witness :
    manage_queue "delete_queue" none none ⟨true⟩ ⟨1, 0⟩
        (.stored (empty_queue_doc ⟨0, 0⟩)) =
      ("Error: Unknown action 'delete_queue'. Available actions: add_to_queue, get_pending, mark_completed, get_status",
        .stored (empty_queue_doc ⟨0, 0⟩)) := by
  rw [(manage_queue_total_spec "delete_queue" none none ⟨true⟩ ⟨1, 0⟩
    (.stored (empty_queue_doc ⟨0, 0⟩))).1 (by decide)]
  decide

/-- C8: admitting a non-empty payload into a freshly initialized store and
then listing pending yields exactly one entry, whose `validation_data` is
the payload itself, untouched. -/
theorem admit_round_trip (x : ValidationData) (t0 t : Instant) (env : Env)
    (hx : x ≠ []) :
    get_pending_list (apply_op env (empty_queue_doc t0) (.add x t)) =
        [queue_item_of x t] ∧
    (queue_item_of x t).validation_data = x ∧
    ((get_pending_list (apply_op env (empty_queue_doc t0) (.add x t))).filter
        (fun r => decide (r.validation_data = x))).length = 1 := by
  rw [apply_op_add_eq env (empty_queue_doc t0) t hx]
  refine ⟨rfl, rfl, ?_⟩
  simp [get_pending_list, queue_item_of, empty_queue_doc]

/-- C8: witness — the sample payload round-trips through the store. -/
theorem admit_round_trip_witness :
    get_pending_list (apply_op ⟨true⟩ (empty_queue_doc ⟨0, 0⟩)
        (.add [("supplier_name", "Test Supplier")] ⟨1, 0⟩)) = [sample_item] ∧
    sample_item.validation_data = [("supplier_name", "Test Supplier")] ∧
    ((get_pending_list (apply_op ⟨true⟩ (empty_queue_doc ⟨0, 0⟩)
        (.add [("supplier_name", "Test Supplier")] ⟨1, 0⟩))).filter
        (fun r => decide
          (r.validation_data = [("supplier_name", "Test Supplier")]))).length = 1 :=
  admit_round_trip [("supplier_name", "Test Supplier")] ⟨0, 0⟩ ⟨1, 0⟩ ⟨true⟩
    (by decide)

/-- C9: the status rendering reports exactly the lengths of
`pending_requests` and `completed_requests` (and `last_updated`); after
admitting three requests and completing the first, the tool reports two
pending and one completed. -/
theorem get_status_counts (doc : QueueDoc) :
    render_status doc =
        "📊 Purchase Queue Status:\n"
          ++ "   Pending Requests: " ++ toString doc.pending_requests.length ++ "\n"
          ++ "   Completed Requests: " ++ toString doc.completed_requests.length ++ "\n"
          ++ "   Last Updated: " ++ doc.metadata.last_updated ++ "\n" ∧
    (run_ops ⟨true⟩ (empty_queue_doc ⟨0, 0⟩)
        [.add [("k", "v")] ⟨1, 0⟩, .add [("k", "v")] ⟨2, 0⟩,
         .add [("k", "v")] ⟨3, 0⟩,
         .complete "PQ_1" ⟨4, 0⟩]).pending_requests.length = 2 ∧
    (run_ops ⟨true⟩ (empty_queue_doc ⟨0, 0⟩)
        [.add [("k", "v")] ⟨1, 0⟩, .add [("k", "v")] ⟨2, 0⟩,
         .add [("k", "v")] ⟨3, 0⟩,
         .complete "PQ_1" ⟨4, 0⟩]).completed_requests.length = 1 ∧
    get_queue_status ⟨true⟩ ⟨5, 0⟩ (.stored (run_ops ⟨true⟩ (empty_queue_doc ⟨0, 0⟩)
        [.add [("k", "v")] ⟨1, 0⟩, .add [("k", "v")] ⟨2, 0⟩,
         .add [("k", "v")] ⟨3, 0⟩, .complete "PQ_1" ⟨4, 0⟩])) =
      .ok ("📊 Purchase Queue Status:\n   Pending Requests: 2\n   Completed Requests: 1\n   Last Updated: 4.0\n",
        .stored (run_ops ⟨true⟩ (empty_queue_doc ⟨0, 0⟩)
          [.add [("k", "v")] ⟨1, 0⟩, .add [("k", "v")] ⟨2, 0⟩,
           .add [("k", "v")] ⟨3, 0⟩, .complete "PQ_1" ⟨4, 0⟩])) :=
  ⟨rfl, by decide, by decide, by decide⟩

/-- C10: frame effects.  A successful completion changes only the moved
entry's `status`, `completed_at` and `processed_by` and the document's
`last_updated`: the moved entry's identifying fields survive, the remaining
pending entries keep their relative order, pre-existing completed entries
and `created_at` are untouched; an admission likewise only appends to
`pending_requests` and refreshes `last_updated`. -/
theorem frame_effects (env : Env) (t : Instant) (doc : QueueDoc)
    (rid : String) (a b : List PurchaseRequest) (r : PurchaseRequest)
    (d : ValidationData) :
    (doc.pending_requests = a ++ r :: b → r.request_id = rid →
      (∀ x ∈ a, x.request_id ≠ rid) → rid ≠ "" →
      (apply_op env doc (.complete rid t)).pending_requests = a ++ b ∧
      (∃ r1, (apply_op env doc (.complete rid t)).completed_requests =
          doc.completed_requests ++ [r1] ∧
        r1.request_id = r.request_id ∧ r1.timestamp = r.timestamp ∧
        r1.validation_data = r.validation_data ∧
        r1.created_by = r.created_by ∧ r1.status = "completed" ∧
        r1.completed_at = some (isoformat t) ∧
        r1.processed_by = some "purchase_order_agent") ∧
      (apply_op env doc (.complete rid t)).metadata.created_at =
        doc.metadata.created_at ∧
      (apply_op env doc (.complete rid t)).metadata.last_updated =
        isoformat t) ∧
    (d ≠ [] →
      (apply_op env doc (.add d t)).completed_requests =
        doc.completed_requests ∧
      (apply_op env doc (.add d t)).pending_requests =
        doc.pending_requests ++ [queue_item_of d t] ∧
      (apply_op env doc (.add d t)).metadata.created_at =
        doc.metadata.created_at) := by
  constructor
  · intro hsplit hr ha h0
    rw [apply_op_complete_found_eq env doc t hsplit hr ha h0]
    exact ⟨rfl, ⟨_, rfl, rfl, rfl, rfl, rfl, rfl, rfl, rfl⟩, rfl, rfl⟩
  · intro hd
    rw [apply_op_add_eq env doc t hd]
    exact ⟨rfl, rfl, rfl⟩

/-- C10: witness — completing the sample item changes only the stamped
fields and `last_updated`. -/
theorem frame_effects_witness :
    (apply_op ⟨true⟩ sample_doc (.complete "PQ_1" ⟨2, 0⟩)).pending_requests =
        [] ++ [] ∧
    (∃ r1, (apply_op ⟨true⟩ sample_doc
          (.complete "PQ_1" ⟨2, 0⟩)).completed_requests =
        sample_doc.completed_requests ++ [r1] ∧
      r1.request_id = sample_item.request_id ∧
      r1.timestamp = sample_item.timestamp ∧
      r1.validation_data = sample_item.validation_data ∧
      r1.created_by = sample_item.created_by ∧ r1.status = "completed" ∧
      r1.completed_at = some (isoformat ⟨2, 0⟩) ∧
      r1.processed_by = some "purchase_order_agent") ∧
    (apply_op ⟨true⟩ sample_doc (.complete "PQ_1" ⟨2, 0⟩)).metadata.created_at =
      sample_doc.metadata.created_at ∧
    (apply_op ⟨true⟩ sample_doc (.complete "PQ_1" ⟨2, 0⟩)).metadata.last_updated =
      isoformat ⟨2, 0⟩ :=
  (frame_effects ⟨true⟩ ⟨2, 0⟩ sample_doc "PQ_1" [] [] sample_item
      [("k", "v")]).1 (by decide) (by decide) (by decide) (by decide)
